import Mathlib

/-!
Shallow embedding of the reconciliation core of the repository
(src/hooks/useReconciliation.ts, src/types/index.ts, src/data/mockData.ts):
the domain store (bank/system transactions, reconciliation entries, file
uploads, current user), its mutation operations, and the file-upload
search/filter/sort/paginate query, together with theorems settling the
specification claims about them.

Modelling conventions:
* JS strings are Lean String; optional (possibly undefined) fields are
  Option String.
* Monetary amounts are modelled in integer cents (every amount produced by
  the program has at most two fraction digits).
* Environment inputs of the original code (Date.now(), new Date()
  timestamps, Math.random() draws) are threaded as explicit parameters.
* Each mutator of the React hook becomes a function Store -> ... -> Store;
  the hook runs its state updates synchronously within one call, so one
  function application models one call.
-/

namespace Recon

/-- Transaction.type from src/types/index.ts: movement kind of a ledger line. -/
inductive TxnType where
  | credit
  | debit
deriving Repr, DecidableEq

/-- Transaction.status from src/types/index.ts. -/
inductive TxnStatus where
  | unreconciled
  | reconciled
  | pending
deriving Repr, DecidableEq

/-- Transaction.source from src/types/index.ts. -/
inductive TxnSource where
  | bank
  | system
deriving Repr, DecidableEq

/-- Transaction from src/types/index.ts (amount in integer cents). -/
structure Transaction where
  id : String
  date : String
  amount : Int
  description : String
  type : TxnType
  reference : String
  status : TxnStatus
  source : TxnSource
  accountId : Option String
  transId : Option String
deriving Repr, DecidableEq

/-- ReconciliationEntry.status from src/types/index.ts. -/
inductive ReconStatus where
  | draft
  | pending_approval
  | approved
  | rejected
deriving Repr, DecidableEq

/-- ReconciliationEntry from src/types/index.ts. -/
structure ReconciliationEntry where
  id : String
  bankTransactionId : String
  systemTransactionId : String
  createdBy : String
  createdAt : String
  approvedBy : Option String
  approvedAt : Option String
  status : ReconStatus
  comments : Option String
  rejectionReason : Option String
deriving Repr, DecidableEq

/-- FileUpload.status from src/types/index.ts. -/
inductive FileStatus where
  | pending_approval
  | approved
  | rejected
deriving Repr, DecidableEq

/-- FileUpload from src/types/index.ts. -/
structure FileUpload where
  id : String
  fileName : String
  uploadedBy : String
  uploadedAt : String
  status : FileStatus
  approvedBy : Option String
  approvedAt : Option String
  rejectionReason : Option String
  transactionCount : Nat
  source : TxnSource
  transactions : List Transaction
  organization : Option String
  schedule : Option String
  remarks : Option String
deriving Repr, DecidableEq

/-- User.role from src/types/index.ts. -/
inductive UserRole where
  | maker
  | checker
  | admin
deriving Repr, DecidableEq

/-- User from src/types/index.ts. -/
structure User where
  id : String
  name : String
  role : UserRole
  email : String
deriving Repr, DecidableEq

/-- The five useState collections of useReconciliation (src/hooks/useReconciliation.ts lines 6-10). -/
structure Store where
  bankTransactions : List Transaction
  systemTransactions : List Transaction
  reconciliationEntries : List ReconciliationEntry
  fileUploads : List FileUpload
  currentUser : User
deriving Repr, DecidableEq

/-- SearchFilters.status from src/types/index.ts: the literal union
'all' | 'pending_approval' | 'approved' | 'rejected'. -/
inductive StatusFilter where
  | all
  | stat (s : FileStatus)
deriving Repr, DecidableEq

/-- FileUploadSearchParams from src/types/index.ts (PaginationParams plus SearchFilters). -/
structure FileUploadSearchParams where
  page : Int
  pageSize : Int
  organization : Option String
  schedule : Option String
  status : Option StatusFilter
  searchTerm : Option String
deriving Repr, DecidableEq

/-- The pagination descriptor of PaginatedResponse from src/types/index.ts. -/
structure PaginationInfo where
  currentPage : Int
  pageSize : Int
  totalItems : Nat
  totalPages : Int
  hasNextPage : Bool
  hasPreviousPage : Bool
deriving Repr, DecidableEq

/-- SearchFilters from src/types/index.ts. -/
structure SearchFilters where
  organization : Option String
  schedule : Option String
  status : Option StatusFilter
  searchTerm : Option String
deriving Repr, DecidableEq

/-- PaginatedResponse from src/types/index.ts. -/
structure PaginatedResponse (α : Type) where
  data : List α
  pagination : PaginationInfo
  filters : SearchFilters
deriving Repr, DecidableEq

/-- JS String.prototype.toLowerCase, restricted to the ASCII case mapping
(every string the program compares is ASCII). -/
def jsToLower (s : String) : String :=
  s.map Char.toLower

/-- needle occurs as a prefix of some suffix of hay. -/
def infixCheck (needle : List Char) : List Char → Bool
  | [] => needle.isPrefixOf []
  | c :: rest => needle.isPrefixOf (c :: rest) || infixCheck needle rest

/-- JS String.prototype.includes: needle occurs contiguously in hay. -/
def jsIncludes (hay needle : String) : Bool :=
  infixCheck needle.toList hay.toList

/-- JS String.prototype.trim, restricted to ASCII whitespace: leading and
trailing whitespace characters are removed. -/
def jsTrim (s : String) : String :=
  String.mk (((s.toList.dropWhile Char.isWhitespace).reverse.dropWhile Char.isWhitespace).reverse)

/-- Numeric value of a decimal digit character. -/
def digitVal (c : Char) : Nat :=
  c.toNat - 48

/-- Decimal value of a digit list, most significant first. -/
def natOfDigits (cs : List Char) : Nat :=
  cs.foldl (fun a c => a * 10 + digitVal c) 0

/-- Order-preserving model of new Date(s).getTime() for the ISO-8601 UTC
strings the program stores in uploadedAt (YYYY-MM-DD, optionally followed by
THH:MM:SS, an optional .mmm fraction, and Z). Field values are packed into
one Nat by a strictly monotone encoding; the program only ever compares
these keys, so order-faithfulness is all that is required. -/
def dateKey (s : String) : Nat :=
  let cs := s.toList
  let y := natOfDigits (cs.take 4)
  let mo := natOfDigits ((cs.drop 5).take 2)
  let d := natOfDigits ((cs.drop 8).take 2)
  let h := natOfDigits ((cs.drop 11).take 2)
  let mi := natOfDigits ((cs.drop 14).take 2)
  let sec := natOfDigits ((cs.drop 17).take 2)
  let ms := if (cs.drop 19).head? = some '.' then natOfDigits ((cs.drop 20).take 3) else 0
  (((((y * 13 + mo) * 32 + d) * 24 + h) * 60 + mi) * 60 + sec) * 1000 + ms

/-- The sort comparator at line 48 of useReconciliation.ts is
(a, b) => dateTime(b) - dateTime(a); element a may precede b exactly when the
comparator is non-positive, i.e. when dateKey b.uploadedAt ≤ dateKey a.uploadedAt. -/
def uploadLE (a b : FileUpload) : Bool :=
  decide (dateKey b.uploadedAt ≤ dateKey a.uploadedAt)

/-- Array.prototype.sort with the comparator above: ECMAScript sort is
stable and consistent with the comparator, which any stable sort realises. -/
def sortByUploadedAt (l : List FileUpload) : List FileUpload :=
  l.mergeSort uploadLE

/-- Organization filter predicate (useReconciliation.ts lines 21-23):
file.organization?.toLowerCase().includes(param.toLowerCase()); a missing
organization yields undefined, which is falsy, so the file is dropped. -/
def orgMatch (param : String) (f : FileUpload) : Bool :=
  match f.organization with
  | none => false
  | some o => jsIncludes (jsToLower o) (jsToLower param)

/-- Schedule filter predicate (useReconciliation.ts lines 27-29). -/
def schedMatch (param : String) (f : FileUpload) : Bool :=
  match f.schedule with
  | none => false
  | some sc => jsIncludes (jsToLower sc) (jsToLower param)

/-- Optional-chaining helper for the searchTerm predicate: a missing field is falsy. -/
def optIncludes (field : Option String) (needle : String) : Bool :=
  match field with
  | none => false
  | some v => jsIncludes (jsToLower v) needle

/-- searchTerm predicate (useReconciliation.ts lines 38-44): the lowercased
term must occur in fileName, uploadedBy, remarks, organization or schedule. -/
def termMatch (searchLower : String) (f : FileUpload) : Bool :=
  jsIncludes (jsToLower f.fileName) searchLower ||
  jsIncludes (jsToLower f.uploadedBy) searchLower ||
  optIncludes f.remarks searchLower ||
  optIncludes f.organization searchLower ||
  optIncludes f.schedule searchLower

/-- Lines 20-24: if (params.organization && params.organization !== 'all');
the empty string is falsy in JS, so it also skips the filter. -/
def filterByOrganization (organization : Option String) (l : List FileUpload) : List FileUpload :=
  match organization with
  | some o => if o == "" || o == "all" then l else l.filter (orgMatch o)
  | none => l

/-- Lines 26-30: the schedule filter, same truthiness conditions. -/
def filterBySchedule (schedule : Option String) (l : List FileUpload) : List FileUpload :=
  match schedule with
  | some sc => if sc == "" || sc == "all" then l else l.filter (schedMatch sc)
  | none => l

/-- Lines 32-34: if (params.status && params.status !== 'all') exact status match;
the status literals are never empty strings, so present means truthy. -/
def filterByStatus (status : Option StatusFilter) (l : List FileUpload) : List FileUpload :=
  match status with
  | some (StatusFilter.stat fs) => l.filter (fun f => f.status == fs)
  | _ => l

/-- Lines 36-45: if (params.searchTerm && params.searchTerm.trim()); the
match itself uses the lowercased but NOT trimmed term. -/
def filterBySearchTerm (searchTerm : Option String) (l : List FileUpload) : List FileUpload :=
  match searchTerm with
  | some t => if t == "" || jsTrim t == "" then l else l.filter (termMatch (jsToLower t))
  | none => l

/-- The filter pipeline of searchFileUploads in source order
(organization, schedule, status, searchTerm). -/
def applyFilters (fileUploads : List FileUpload) (params : FileUploadSearchParams) : List FileUpload :=
  filterBySearchTerm params.searchTerm
    (filterByStatus params.status
      (filterBySchedule params.schedule
        (filterByOrganization params.organization fileUploads)))

/-- Array.prototype.slice index resolution: a negative index counts from the
end clamped at 0, a non-negative one is clamped at the length. -/
def jsSliceIdx (len : Nat) (i : Int) : Nat :=
  if i < 0 then ((len : Int) + i).toNat else min i.toNat len

/-- Array.prototype.slice start stop (stop exclusive). -/
def jsSlice {α : Type} (l : List α) (start stop : Int) : List α :=
  let s := jsSliceIdx l.length start
  let e := jsSliceIdx l.length stop
  (l.drop s).take (e - s)

/-- Math.ceil(totalItems / pageSize) of line 52, for pageSize > 0. For
non-positive pageSize the JS division produces a non-finite number; no claim
exercises that case and it is mapped to 0 here. -/
def ceilDivNatInt (a : Nat) (b : Int) : Int :=
  if 0 < b then ((a : Int) + b - 1) / b else 0

/-- searchFileUploads (useReconciliation.ts lines 13-74) minus the simulated
delay: filter, stable sort by uploadedAt descending, then paginate, returning
the data slice, the pagination descriptor and an echo of the filters. The
function reads fileUploads and calls no state setter. -/
def searchFileUploads (fileUploads : List FileUpload) (params : FileUploadSearchParams) : PaginatedResponse FileUpload :=
  let filteredFiles := applyFilters fileUploads params
  let sortedFiles := sortByUploadedAt filteredFiles
  let totalItems := sortedFiles.length
  let totalPages := ceilDivNatInt totalItems params.pageSize
  let startIndex := (params.page - 1) * params.pageSize
  let endIndex := startIndex + params.pageSize
  let paginatedFiles := jsSlice sortedFiles startIndex endIndex
  { data := paginatedFiles
    pagination :=
      { currentPage := params.page
        pageSize := params.pageSize
        totalItems := totalItems
        totalPages := totalPages
        hasNextPage := decide (params.page < totalPages)
        hasPreviousPage := decide (params.page > 1) }
    filters :=
      { organization := params.organization
        schedule := params.schedule
        status := params.status
        searchTerm := params.searchTerm } }

/-- The searchFileUploads call as seen at store level: the hook closure only
reads s.fileUploads (line 17 copies the array; filter and sort act on the
copy) and invokes no setState, so the store is unchanged by the call. -/
def searchCall (s : Store) (params : FileUploadSearchParams) : Store × PaginatedResponse FileUpload :=
  (s, searchFileUploads s.fileUploads params)

/-- Template fragments keyed by source, lowercase form. -/
def srcStr : TxnSource → String
  | TxnSource.bank => "bank"
  | TxnSource.system => "system"

/-- Capitalised form used in generated descriptions. -/
def srcCap : TxnSource → String
  | TxnSource.bank => "Bank"
  | TxnSource.system => "System"

/-- source.toUpperCase() used in generated references. -/
def srcUpper : TxnSource → String
  | TxnSource.bank => "BANK"
  | TxnSource.system => "SYSTEM"

/-- source.charAt(0).toUpperCase() used in generated transIds. -/
def srcInitial : TxnSource → String
  | TxnSource.bank => "B"
  | TxnSource.system => "S"

/-- String(n).padStart(2, the zero digit). -/
def pad2 (n : Nat) : String :=
  if n < 10 then "0" ++ toString n else toString n

/-- String(n).padStart(3, the zero digit). -/
def pad3 (n : Nat) : String :=
  if n < 10 then "00" ++ toString n else if n < 100 then "0" ++ toString n else toString n

/-- One loop iteration's Math.random() draws in the mock file-transaction
generator (mockData.ts generateMockTransactions), recorded as the values they
produce: the rounded amount in cents, the credit/debit coin flip, and the
account number drawn in [1,10]. -/
structure RandChoice where
  amountCents : Int
  isCredit : Bool
  accountN : Nat
deriving Repr, DecidableEq

/-- One generated transaction of mockData.ts generateMockTransactions: the
base date 2024-01-20 advanced by i days (i < 12, so the month never rolls
over), with the random draws supplied by r. -/
def genMockTransaction (source : TxnSource) (fileId : String) (i : Nat) (r : RandChoice) : Transaction :=
  { id := srcStr source ++ "-" ++ fileId ++ "-" ++ toString (i + 1)
    date := "2024-01-" ++ pad2 (20 + i)
    amount := r.amountCents
    description := srcCap source ++ " Transaction " ++ toString (i + 1) ++ " from file"
    type := if r.isCredit then TxnType.credit else TxnType.debit
    reference := srcUpper source ++ "-REF-" ++ fileId ++ "-" ++ pad3 (i + 1)
    status := TxnStatus.unreconciled
    source := source
    accountId := some ("ACC-" ++ pad3 r.accountN)
    transId := some (srcInitial source ++ fileId ++ "-" ++ pad3 (i + 1)) }

/-- generateMockTransactions of mockData.ts: one transaction per random draw;
the count argument of the source equals the length of the draw list. -/
def generateMockTransactions (source : TxnSource) (fileId : String) (rands : List RandChoice) : List Transaction :=
  rands.enum.map fun p => genMockTransaction source fileId p.1 p.2

/-- mockUsers of mockData.ts. -/
def mockUsers : List User :=
  [ { id := "1", name := "John Doe", role := UserRole.maker, email := "john@company.com" },
    { id := "2", name := "Jane Smith", role := UserRole.checker, email := "jane@company.com" },
    { id := "3", name := "Admin User", role := UserRole.admin, email := "admin@company.com" } ]

/-- mockBankTransactions of mockData.ts (amounts in cents). -/
def mockBankTransactions : List Transaction :=
  [ { id := "bank-1", date := "2024-01-15", amount := 125000,
      description := "Payment from ABC Corp", type := TxnType.credit,
      reference := "TXN-2024-001", status := TxnStatus.unreconciled,
      source := TxnSource.bank, accountId := some "ACC-001", transId := some "B001" },
    { id := "bank-2", date := "2024-01-16", amount := 85075,
      description := "Office Supplies Purchase", type := TxnType.debit,
      reference := "TXN-2024-002", status := TxnStatus.unreconciled,
      source := TxnSource.bank, accountId := some "ACC-002", transId := some "B002" },
    { id := "bank-3", date := "2024-01-17", amount := 210000,
      description := "Service Fee Payment", type := TxnType.credit,
      reference := "TXN-2024-003", status := TxnStatus.unreconciled,
      source := TxnSource.bank, accountId := some "ACC-003", transId := some "B003" } ]

/-- mockSystemTransactions of mockData.ts (amounts in cents). -/
def mockSystemTransactions : List Transaction :=
  [ { id := "sys-1", date := "2024-01-15", amount := 125000,
      description := "ABC Corp Invoice Payment", type := TxnType.credit,
      reference := "INV-2024-001", status := TxnStatus.unreconciled,
      source := TxnSource.system, accountId := some "ACC-001", transId := some "S001" },
    { id := "sys-2", date := "2024-01-16", amount := 85075,
      description := "Office Supplies - Staples", type := TxnType.debit,
      reference := "PO-2024-001", status := TxnStatus.unreconciled,
      source := TxnSource.system, accountId := some "ACC-002", transId := some "S002" },
    { id := "sys-3", date := "2024-01-17", amount := 210000,
      description := "Professional Services", type := TxnType.credit,
      reference := "SVC-2024-001", status := TxnStatus.unreconciled,
      source := TxnSource.system, accountId := some "ACC-003", transId := some "S003" } ]

/-- mockReconciliationEntries of mockData.ts. -/
def mockReconciliationEntries : List ReconciliationEntry :=
  [ { id := "rec-1", bankTransactionId := "bank-1", systemTransactionId := "sys-1",
      createdBy := "John Doe", createdAt := "2024-01-18T10:30:00Z",
      approvedBy := none, approvedAt := none,
      status := ReconStatus.pending_approval,
      comments := some "Amounts and dates match perfectly", rejectionReason := none },
    { id := "rec-2", bankTransactionId := "bank-2", systemTransactionId := "sys-2",
      createdBy := "John Doe", createdAt := "2024-01-18T11:15:00Z",
      approvedBy := some "Jane Smith", approvedAt := some "2024-01-18T14:20:00Z",
      status := ReconStatus.approved,
      comments := some "Verified with purchase order. All documentation matches.",
      rejectionReason := none },
    { id := "rec-3", bankTransactionId := "bank-3", systemTransactionId := "sys-3",
      createdBy := "John Doe", createdAt := "2024-01-19T09:45:00Z",
      approvedBy := some "Jane Smith", approvedAt := some "2024-01-19T15:30:00Z",
      status := ReconStatus.rejected,
      comments := some "Initial reconciliation attempt",
      rejectionReason := some "Amount discrepancy found. Bank shows $2,100 but system shows $2,000. Please investigate and resubmit with correct amounts." } ]

/-- mockFileUploads of mockData.ts, with the random draws of the three
generator calls (counts 8, 6 and 12) as parameters. -/
def mockFileUploads (r1 r2 r3 : List RandChoice) : List FileUpload :=
  [ { id := "file-1", fileName := "bank_transactions_jan_2024.xlsx",
      uploadedBy := "John Doe", uploadedAt := "2024-01-18T09:00:00Z",
      status := FileStatus.pending_approval,
      approvedBy := none, approvedAt := none, rejectionReason := none,
      transactionCount := 8, source := TxnSource.bank,
      transactions := generateMockTransactions TxnSource.bank "file-1" r1,
      organization := some "Head Office", schedule := some "Daily",
      remarks := some "Regular daily bank statement upload for January 2024" },
    { id := "file-2", fileName := "system_transactions_jan_2024.xlsx",
      uploadedBy := "John Doe", uploadedAt := "2024-01-18T09:30:00Z",
      status := FileStatus.approved,
      approvedBy := some "Jane Smith", approvedAt := some "2024-01-18T10:00:00Z",
      rejectionReason := none,
      transactionCount := 6, source := TxnSource.system,
      transactions := generateMockTransactions TxnSource.system "file-2" r2,
      organization := some "Branch A", schedule := some "Weekly",
      remarks := some "Weekly system transaction export for reconciliation" },
    { id := "file-3", fileName := "bank_transactions_feb_2024.xlsx",
      uploadedBy := "John Doe", uploadedAt := "2024-01-19T14:15:00Z",
      status := FileStatus.rejected,
      approvedBy := some "Jane Smith", approvedAt := some "2024-01-19T16:45:00Z",
      rejectionReason := some "Invalid date format in rows 5-7. Please correct the date format to YYYY-MM-DD and re-upload. Also found duplicate transaction IDs in rows 10 and 15.",
      transactionCount := 12, source := TxnSource.bank,
      transactions := generateMockTransactions TxnSource.bank "file-3" r3,
      organization := some "Regional Office North", schedule := some "Monthly",
      remarks := some "February month-end bank statement with corrections needed" } ]

/-- The initial store of useReconciliation (lines 6-10): the mock collections,
with currentUser = mockUsers[0]. -/
def mkInitialStore (r1 r2 r3 : List RandChoice) : Store :=
  { bankTransactions := mockBankTransactions
    systemTransactions := mockSystemTransactions
    reconciliationEntries := mockReconciliationEntries
    fileUploads := mockFileUploads r1 r2 r3
    currentUser := { id := "1", name := "John Doe", role := UserRole.maker, email := "john@company.com" } }

/-- The argument of createReconciliation: a ReconciliationEntry with the id
and createdAt fields omitted (they are generated inside the call). -/
structure ReconciliationInput where
  bankTransactionId : String
  systemTransactionId : String
  createdBy : String
  approvedBy : Option String
  approvedAt : Option String
  status : ReconStatus
  comments : Option String
  rejectionReason : Option String
deriving Repr, DecidableEq

/-- createReconciliation (useReconciliation.ts lines 76-92). Date.now() and
new Date().toISOString() are the nowMs / nowIso parameters. The TS function
body has no return statement, so a call evaluates to undefined: the second
component of the result models the returned value and is always none. -/
def createReconciliation (s : Store) (entry : ReconciliationInput) (nowMs : Nat) (nowIso : String) : Store × Option String :=
  let newEntry : ReconciliationEntry :=
    { id := "rec-" ++ toString nowMs
      bankTransactionId := entry.bankTransactionId
      systemTransactionId := entry.systemTransactionId
      createdBy := entry.createdBy
      createdAt := nowIso
      approvedBy := entry.approvedBy
      approvedAt := entry.approvedAt
      status := entry.status
      comments := entry.comments
      rejectionReason := entry.rejectionReason }
  ({ s with
      reconciliationEntries := s.reconciliationEntries ++ [newEntry]
      bankTransactions := s.bankTransactions.map fun t =>
        if t.id == entry.bankTransactionId then { t with status := TxnStatus.pending } else t
      systemTransactions := s.systemTransactions.map fun t =>
        if t.id == entry.systemTransactionId then { t with status := TxnStatus.pending } else t },
    none)

/-- JS || applied to the optional comments argument (line 103):
undefined and the empty string are falsy. -/
def jsOrString (a b : Option String) : Option String :=
  match a with
  | some v => if v == "" then b else some v
  | none => b

/-- approveReconciliation (useReconciliation.ts lines 94-119): every entry
matching entryId is set to approved and stamped; the entry looked up on line
110 comes from the pre-update closure value of reconciliationEntries, and only
when it exists are the two referenced transactions set to reconciled. There is
no guard on the entry's current status. -/
def approveReconciliation (s : Store) (entryId : String) (comments : Option String) (nowIso : String) : Store :=
  let entries := s.reconciliationEntries.map fun e =>
    if e.id == entryId then
      { e with
          status := ReconStatus.approved
          approvedBy := some s.currentUser.name
          approvedAt := some nowIso
          comments := jsOrString comments e.comments }
    else e
  match s.reconciliationEntries.find? (fun e => e.id == entryId) with
  | some entry =>
      { s with
          reconciliationEntries := entries
          bankTransactions := s.bankTransactions.map fun t =>
            if t.id == entry.bankTransactionId then { t with status := TxnStatus.reconciled } else t
          systemTransactions := s.systemTransactions.map fun t =>
            if t.id == entry.systemTransactionId then { t with status := TxnStatus.reconciled } else t }
  | none => { s with reconciliationEntries := entries }

/-- rejectReconciliation (useReconciliation.ts lines 121-146): every entry
matching entryId is set to rejected and stamped with the reason; when the
entry exists, both referenced transactions revert to unreconciled. There is no
guard on the entry's current status and none on the reason being non-empty. -/
def rejectReconciliation (s : Store) (entryId : String) (reason : String) (nowIso : String) : Store :=
  let entries := s.reconciliationEntries.map fun e =>
    if e.id == entryId then
      { e with
          status := ReconStatus.rejected
          rejectionReason := some reason
          approvedBy := some s.currentUser.name
          approvedAt := some nowIso }
    else e
  match s.reconciliationEntries.find? (fun e => e.id == entryId) with
  | some entry =>
      { s with
          reconciliationEntries := entries
          bankTransactions := s.bankTransactions.map fun t =>
            if t.id == entry.bankTransactionId then { t with status := TxnStatus.unreconciled } else t
          systemTransactions := s.systemTransactions.map fun t =>
            if t.id == entry.systemTransactionId then { t with status := TxnStatus.unreconciled } else t }
  | none => { s with reconciliationEntries := entries }

/-- handleFileUpload (useReconciliation.ts lines 148-193). The generated
batch depends on Math.random() and Date.now(); the batch is threaded as an
environment input. The code sets transactionCount to the same random count it
passes to the generator, which returns exactly that many transactions, so the
count equals the batch length. -/
def handleFileUpload (s : Store) (fileName : String) (source : TxnSource) (organization schedule : String) (remarks : Option String) (generated : List Transaction) (nowMs : Nat) (nowIso : String) : Store :=
  let newFileUpload : FileUpload :=
    { id := "file-" ++ toString nowMs
      fileName := fileName
      uploadedBy := s.currentUser.name
      uploadedAt := nowIso
      status := FileStatus.pending_approval
      approvedBy := none
      approvedAt := none
      rejectionReason := none
      transactionCount := generated.length
      source := source
      transactions := generated
      organization := some organization
      schedule := some schedule
      remarks := remarks }
  { s with fileUploads := s.fileUploads ++ [newFileUpload] }

/-- approveFile (useReconciliation.ts lines 195-218): returns early when no
file matches; otherwise stamps every matching file approved and appends the
found file's transactions to the collection selected by its source. The
optional comments parameter of the TS signature is never read and is omitted.
There is no guard on the file's current status. -/
def approveFile (s : Store) (fileId : String) (nowIso : String) : Store :=
  match s.fileUploads.find? (fun f => f.id == fileId) with
  | none => s
  | some file =>
      let files := s.fileUploads.map fun f =>
        if f.id == fileId then
          { f with
              status := FileStatus.approved
              approvedBy := some s.currentUser.name
              approvedAt := some nowIso }
        else f
      match file.source with
      | TxnSource.bank =>
          { s with fileUploads := files,
                   bankTransactions := s.bankTransactions ++ file.transactions }
      | TxnSource.system =>
          { s with fileUploads := files,
                   systemTransactions := s.systemTransactions ++ file.transactions }

/-- rejectFile (useReconciliation.ts lines 220-234): every matching file is
set to rejected and stamped; nothing else changes. -/
def rejectFile (s : Store) (fileId : String) (reason : String) (nowIso : String) : Store :=
  { s with fileUploads := s.fileUploads.map fun f =>
      if f.id == fileId then
        { f with
            status := FileStatus.rejected
            rejectionReason := some reason
            approvedBy := some s.currentUser.name
            approvedAt := some nowIso }
      else f }

/-- The argument of addIndividualTransaction: a Transaction with the id and
status fields omitted (they are generated inside the call). -/
structure TransactionInput where
  date : String
  amount : Int
  description : String
  type : TxnType
  reference : String
  source : TxnSource
  accountId : Option String
  transId : Option String
deriving Repr, DecidableEq

/-- addIndividualTransaction (useReconciliation.ts lines 236-248): status is
forced to unreconciled, the id built from the source and Date.now(). -/
def addIndividualTransaction (s : Store) (txn : TransactionInput) (nowMs : Nat) : Store :=
  let newTransaction : Transaction :=
    { id := srcStr txn.source ++ "-" ++ toString nowMs
      date := txn.date
      amount := txn.amount
      description := txn.description
      type := txn.type
      reference := txn.reference
      status := TxnStatus.unreconciled
      source := txn.source
      accountId := txn.accountId
      transId := txn.transId }
  match txn.source with
  | TxnSource.bank => { s with bankTransactions := s.bankTransactions ++ [newTransaction] }
  | TxnSource.system => { s with systemTransactions := s.systemTransactions ++ [newTransaction] }

/-- changeUserRole (useReconciliation.ts lines 250-255): the first mock user
with the given role becomes current; silently a no-op when none exists. -/
def changeUserRole (s : Store) (role : UserRole) : Store :=
  match mockUsers.find? (fun u => u.role == role) with
  | some user => { s with currentUser := user }
  | none => s

/-- handleFormSubmit of ReconciliationForm.tsx (lines 32-44), the sole
producer of createReconciliation calls in the program (via
handleCreateReconciliation in App.tsx): createdBy is the literal John Doe,
status is pending_approval, and empty comments become undefined. -/
def reconciliationFormSubmit (s : Store) (bankTxn systemTxn : Transaction) (comments : String) (nowMs : Nat) (nowIso : String) : Store × Option String :=
  createReconciliation s
    { bankTransactionId := bankTxn.id
      systemTransactionId := systemTxn.id
      createdBy := "John Doe"
      approvedBy := none
      approvedAt := none
      status := ReconStatus.pending_approval
      comments := if comments == "" then none else some comments
      rejectionReason := none }
    nowMs nowIso

/-- The reachable store states of the program: the initial mock state (with
the random draws of the three mock generator calls as environment inputs,
their lengths fixed by the literal counts 8, 6 and 12 of mockData.ts), closed
under every operation the UI invokes. -/
inductive Reachable : Store → Prop where
  | init (r1 r2 r3 : List RandChoice)
      (h1 : r1.length = 8) (h2 : r2.length = 6) (h3 : r3.length = 12) :
      Reachable (mkInitialStore r1 r2 r3)
  | createStep (s : Store) (bankTxn systemTxn : Transaction) (comments : String)
      (nowMs : Nat) (nowIso : String) : Reachable s →
      Reachable (reconciliationFormSubmit s bankTxn systemTxn comments nowMs nowIso).1
  | approveStep (s : Store) (entryId : String) (comments : Option String) (nowIso : String) :
      Reachable s → Reachable (approveReconciliation s entryId comments nowIso)
  | rejectStep (s : Store) (entryId reason nowIso : String) :
      Reachable s → Reachable (rejectReconciliation s entryId reason nowIso)
  | uploadStep (s : Store) (fileName : String) (source : TxnSource)
      (organization schedule : String) (remarks : Option String)
      (generated : List Transaction) (nowMs : Nat) (nowIso : String) :
      Reachable s →
      Reachable (handleFileUpload s fileName source organization schedule remarks generated nowMs nowIso)
  | approveFileStep (s : Store) (fileId nowIso : String) :
      Reachable s → Reachable (approveFile s fileId nowIso)
  | rejectFileStep (s : Store) (fileId reason nowIso : String) :
      Reachable s → Reachable (rejectFile s fileId reason nowIso)
  | addTxnStep (s : Store) (txn : TransactionInput) (nowMs : Nat) :
      Reachable s → Reachable (addIndividualTransaction s txn nowMs)
  | roleStep (s : Store) (role : UserRole) :
      Reachable s → Reachable (changeUserRole s role)

/-- Default instantiation of the random draws, used for concrete stores. -/
def drand : RandChoice :=
  { amountCents := 50000, isCredit := true, accountN := 1 }

/-- A concrete initial store of the program (one possible outcome of the
random mock generation). -/
def initialStoreW : Store :=
  mkInitialStore (List.replicate 8 drand) (List.replicate 6 drand) (List.replicate 12 drand)

/-- Concrete fixture transaction (bank side). -/
def wTxn : Transaction :=
  { id := "bank-9", date := "2024-02-01", amount := 100, description := "w",
    type := TxnType.credit, reference := "R-1", status := TxnStatus.unreconciled,
    source := TxnSource.bank, accountId := none, transId := none }

/-- Concrete fixture transaction (system side). -/
def wSysTxn : Transaction :=
  { id := "sys-9", date := "2024-02-01", amount := 100, description := "w",
    type := TxnType.credit, reference := "R-2", status := TxnStatus.unreconciled,
    source := TxnSource.system, accountId := none, transId := none }

/-- Concrete fixture entry in pending_approval. -/
def wEntry : ReconciliationEntry :=
  { id := "rec-9", bankTransactionId := "bank-9", systemTransactionId := "sys-9",
    createdBy := "John Doe", createdAt := "2024-02-01T00:00:00Z",
    approvedBy := none, approvedAt := none,
    status := ReconStatus.pending_approval, comments := none, rejectionReason := none }

/-- Concrete fixture file upload in pending_approval. -/
def wFile : FileUpload :=
  { id := "file-9", fileName := "w.xlsx", uploadedBy := "John Doe",
    uploadedAt := "2024-02-01T00:00:00Z", status := FileStatus.pending_approval,
    approvedBy := none, approvedAt := none, rejectionReason := none,
    transactionCount := 1, source := TxnSource.bank, transactions := [wTxn],
    organization := some "Head Office", schedule := some "Daily", remarks := none }

/-- Concrete fixture store. -/
def wStore : Store :=
  { bankTransactions := [wTxn], systemTransactions := [wSysTxn],
    reconciliationEntries := [wEntry], fileUploads := [wFile],
    currentUser := { id := "1", name := "John Doe", role := UserRole.maker, email := "john@company.com" } }

/-- A conditional update map leaves the list unchanged when no element
satisfies the condition. -/
theorem map_ite_id {α : Type} (l : List α) (p : α → Bool) (f : α → α)
    (h : ∀ x ∈ l, p x = false) :
    (l.map fun x => if p x then f x else x) = l := by
  induction l with
  | nil => rfl
  | cons a t ih =>
    have ha : p a = false := h a (List.mem_cons_self a t)
    have ht : ∀ x ∈ t, p x = false := fun x hx => h x (List.mem_cons_of_mem a hx)
    simp [ha, ih ht]

/-- Membership in a conditional update map: the element is either the image
of a matching element or an untouched non-matching element. -/
theorem mem_map_ite {α : Type} {l : List α} {p : α → Bool} {f : α → α} {x : α}
    (hx : x ∈ l.map fun a => if p a then f a else a) :
    (∃ a, a ∈ l ∧ p a = true ∧ x = f a) ∨ (x ∈ l ∧ p x = false) := by
  obtain ⟨a, ha, hEq⟩ := List.mem_map.mp hx
  by_cases hp : p a = true
  · exact Or.inl ⟨a, ha, hp, by rw [← hEq, if_pos hp]⟩
  · have hp' : p a = false := by simpa using hp
    right
    rw [← hEq, if_neg (by simp [hp'])]
    exact ⟨ha, hp'⟩

/-- C6: searchFileUploads is side-effect-free and deterministic with respect
to the store: a call leaves every collection unchanged, and a second call
with identical parameters against the store left by the first returns an
identical result. -/
theorem searchFileUploads_pure (s : Store) (params : FileUploadSearchParams) :
    (searchCall s params).1 = s ∧
    (searchCall (searchCall s params).1 params).2 = (searchCall s params).2 ∧
    ((searchCall s params).1).bankTransactions = s.bankTransactions ∧
    ((searchCall s params).1).systemTransactions = s.systemTransactions ∧
    ((searchCall s params).1).reconciliationEntries = s.reconciliationEntries ∧
    ((searchCall s params).1).fileUploads = s.fileUploads :=
  ⟨rfl, rfl, rfl, rfl, rfl, rfl⟩

/-- Fixture input for createReconciliation. -/
def wInput : ReconciliationInput :=
  { bankTransactionId := "bank-9", systemTransactionId := "sys-9",
    createdBy := "John Doe", approvedBy := none, approvedAt := none,
    status := ReconStatus.pending_approval, comments := none, rejectionReason := none }

/-- C4 counterexample: the concrete call appends the entry rec-5 to the
entries collection, yet its returned value is undefined (none), not the id
of the appended entry. -/
theorem createReconciliation_return_cex :
    (createReconciliation wStore wInput 5 "2024-02-01T00:00:00Z").2 = none ∧
    ((createReconciliation wStore wInput 5 "2024-02-01T00:00:00Z").1.reconciliationEntries.getLast?).map ReconciliationEntry.id = some "rec-5" ∧
    (none : Option String) ≠ some "rec-5" := by
  refine ⟨rfl, by decide, by decide⟩

/-- C4 amended: createReconciliation returns no value (the TS body has no
return statement, so a call evaluates to undefined); the freshly inserted
entry, with id rec-(Date.now()), is observed only by re-reading the store. -/
theorem createReconciliation_returns_nothing (s : Store) (entry : ReconciliationInput) (nowMs : Nat) (nowIso : String) :
    (createReconciliation s entry nowMs nowIso).2 = none ∧
    ∃ newEntry : ReconciliationEntry,
      (createReconciliation s entry nowMs nowIso).1.reconciliationEntries =
        s.reconciliationEntries ++ [newEntry] ∧
      newEntry.id = "rec-" ++ toString nowMs :=
  ⟨rfl, ⟨_, rfl, rfl⟩⟩

/-- C9: calling approveReconciliation or rejectReconciliation with an entryId
matching no entry, or approveFile or rejectFile with a fileId matching no
file, leaves the store exactly unchanged: no partial update occurs. -/
theorem mutations_atomic_missing_id (s : Store) (entryId fileId : String)
    (comments : Option String) (reason nowIso : String)
    (hE : ∀ e ∈ s.reconciliationEntries, e.id ≠ entryId)
    (hF : ∀ f ∈ s.fileUploads, f.id ≠ fileId) :
    approveReconciliation s entryId comments nowIso = s ∧
    rejectReconciliation s entryId reason nowIso = s ∧
    approveFile s fileId nowIso = s ∧
    rejectFile s fileId reason nowIso = s := by
  have hEb : ∀ e ∈ s.reconciliationEntries, (e.id == entryId) = false := by
    intro e he
    simpa using hE e he
  have hFb : ∀ f ∈ s.fileUploads, (f.id == fileId) = false := by
    intro f hf
    simpa using hF f hf
  have hfindE : s.reconciliationEntries.find? (fun e => e.id == entryId) = none :=
    List.find?_eq_none.mpr (by intro e he; simp [hEb e he])
  have hfindF : s.fileUploads.find? (fun f => f.id == fileId) = none :=
    List.find?_eq_none.mpr (by intro f hf; simp [hFb f hf])
  refine ⟨?_, ?_, ?_, ?_⟩
  · unfold approveReconciliation
    rw [hfindE, map_ite_id _ _ _ hEb]
  · unfold rejectReconciliation
    rw [hfindE, map_ite_id _ _ _ hEb]
  · unfold approveFile
    rw [hfindF]
  · unfold rejectFile
    rw [map_ite_id _ _ _ hFb]

/-- C9 witness: a concrete store with no entry zzz and no file zzz, on which
all four mutators are the identity. -/
theorem mutations_atomic_missing_id_witness :
    (∀ e ∈ wStore.reconciliationEntries, e.id ≠ "zzz") ∧
    (∀ f ∈ wStore.fileUploads, f.id ≠ "zzz") ∧
    (approveReconciliation wStore "zzz" none "t" = wStore ∧
     rejectReconciliation wStore "zzz" "r" "t" = wStore ∧
     approveFile wStore "zzz" "t" = wStore ∧
     rejectFile wStore "zzz" "r" "t" = wStore) :=
  ⟨by decide, by decide,
   mutations_atomic_missing_id wStore "zzz" "zzz" none "r" "t" (by decide) (by decide)⟩

/-- The entries collection after approveReconciliation: the conditional
update map, in both branches of the lookup. -/
theorem approveReconciliation_entries (s : Store) (entryId : String)
    (comments : Option String) (nowIso : String) :
    (approveReconciliation s entryId comments nowIso).reconciliationEntries =
      s.reconciliationEntries.map fun e =>
        if e.id == entryId then
          { e with
              status := ReconStatus.approved
              approvedBy := some s.currentUser.name
              approvedAt := some nowIso
              comments := jsOrString comments e.comments }
        else e := by
  unfold approveReconciliation
  cases h : s.reconciliationEntries.find? (fun e => e.id == entryId) <;> rfl

/-- The entries collection after rejectReconciliation: the conditional
update map, in both branches of the lookup. -/
theorem rejectReconciliation_entries (s : Store) (entryId reason nowIso : String) :
    (rejectReconciliation s entryId reason nowIso).reconciliationEntries =
      s.reconciliationEntries.map fun e =>
        if e.id == entryId then
          { e with
              status := ReconStatus.rejected
              rejectionReason := some reason
              approvedBy := some s.currentUser.name
              approvedAt := some nowIso }
        else e := by
  unfold rejectReconciliation
  cases h : s.reconciliationEntries.find? (fun e => e.id == entryId) <;> rfl

/-- C7: rejectReconciliation with a non-empty reason on an existing entry
sets the entry's status to rejected with rejectionReason, approvedBy and
approvedAt stamped, and every bank or system transaction carrying the
entry's referenced ids reverts to unreconciled. -/
theorem rejectReconciliation_effect (s : Store) (entryId reason nowIso : String)
    (entry : ReconciliationEntry)
    (_hreason : reason ≠ "")
    (hfind : s.reconciliationEntries.find? (fun e => e.id == entryId) = some entry) :
    (∀ e ∈ (rejectReconciliation s entryId reason nowIso).reconciliationEntries,
        e.id = entryId →
          e.status = ReconStatus.rejected ∧
          e.rejectionReason = some reason ∧
          e.approvedBy = some s.currentUser.name ∧
          e.approvedAt = some nowIso) ∧
    (∀ t ∈ (rejectReconciliation s entryId reason nowIso).bankTransactions,
        t.id = entry.bankTransactionId → t.status = TxnStatus.unreconciled) ∧
    (∀ t ∈ (rejectReconciliation s entryId reason nowIso).systemTransactions,
        t.id = entry.systemTransactionId → t.status = TxnStatus.unreconciled) := by
  refine ⟨?_, ?_, ?_⟩
  · intro e he hid
    rw [rejectReconciliation_entries] at he
    rcases mem_map_ite he with ⟨a, _, hp, rfl⟩ | ⟨_, hp⟩
    · exact ⟨rfl, rfl, rfl, rfl⟩
    · exact absurd hid (by simpa using hp)
  · intro t ht hid
    unfold rejectReconciliation at ht
    rw [hfind] at ht
    rcases mem_map_ite ht with ⟨a, _, hp, rfl⟩ | ⟨_, hp⟩
    · rfl
    · exact absurd hid (by simpa using hp)
  · intro t ht hid
    unfold rejectReconciliation at ht
    rw [hfind] at ht
    rcases mem_map_ite ht with ⟨a, _, hp, rfl⟩ | ⟨_, hp⟩
    · rfl
    · exact absurd hid (by simpa using hp)

/-- C7 witness: rejecting the pending fixture entry with reason mismatch. -/
theorem rejectReconciliation_effect_witness :
    ("mismatch" ≠ "") ∧
    (wStore.reconciliationEntries.find? (fun e => e.id == "rec-9") = some wEntry) ∧
    ((∀ e ∈ (rejectReconciliation wStore "rec-9" "mismatch" "t").reconciliationEntries,
        e.id = "rec-9" →
          e.status = ReconStatus.rejected ∧
          e.rejectionReason = some "mismatch" ∧
          e.approvedBy = some wStore.currentUser.name ∧
          e.approvedAt = some "t") ∧
     (∀ t ∈ (rejectReconciliation wStore "rec-9" "mismatch" "t").bankTransactions,
        t.id = wEntry.bankTransactionId → t.status = TxnStatus.unreconciled) ∧
     (∀ t ∈ (rejectReconciliation wStore "rec-9" "mismatch" "t").systemTransactions,
        t.id = wEntry.systemTransactionId → t.status = TxnStatus.unreconciled)) :=
  ⟨by decide, by decide,
   rejectReconciliation_effect wStore "rec-9" "mismatch" "t" wEntry (by decide) (by decide)⟩

/-- C1 counterexample: the initial store is reachable (it is the program's
start state) and contains the approved entry rec-2; applying
rejectReconciliation to it changes that terminal entry's status to rejected. -/
theorem terminal_status_changes_cex :
    Reachable initialStoreW ∧
    ((initialStoreW.reconciliationEntries.find? (fun e => e.id == "rec-2")).map
        ReconciliationEntry.status = some ReconStatus.approved) ∧
    (((rejectReconciliation initialStoreW "rec-2" "changed" "2024-02-01T00:00:00Z").reconciliationEntries.find?
        (fun e => e.id == "rec-2")).map ReconciliationEntry.status = some ReconStatus.rejected) := by
  refine ⟨Reachable.init _ _ _ (by simp) (by simp) (by simp), by decide, by decide⟩

/-- C1 amended: approveReconciliation sets the status of every entry matching
entryId to approved, and rejectReconciliation to rejected, regardless of the
entry's current status: an entry already approved or rejected is not
protected and changes status when the other decision is applied. -/
theorem decisions_unconditional (s : Store) (entryId : String)
    (comments : Option String) (reason nowIso : String) :
    (∀ e ∈ (approveReconciliation s entryId comments nowIso).reconciliationEntries,
        e.id = entryId → e.status = ReconStatus.approved) ∧
    (∀ e ∈ (rejectReconciliation s entryId reason nowIso).reconciliationEntries,
        e.id = entryId → e.status = ReconStatus.rejected) ∧
    ((∃ e ∈ s.reconciliationEntries, e.id = entryId) →
        ∃ e ∈ (approveReconciliation s entryId comments nowIso).reconciliationEntries,
          e.id = entryId ∧ e.status = ReconStatus.approved) ∧
    ((∃ e ∈ s.reconciliationEntries, e.id = entryId) →
        ∃ e ∈ (rejectReconciliation s entryId reason nowIso).reconciliationEntries,
          e.id = entryId ∧ e.status = ReconStatus.rejected) := by
  refine ⟨?_, ?_, ?_, ?_⟩
  · intro e he hid
    rw [approveReconciliation_entries] at he
    rcases mem_map_ite he with ⟨a, _, hp, rfl⟩ | ⟨_, hp⟩
    · rfl
    · exact absurd hid (by simpa using hp)
  · intro e he hid
    rw [rejectReconciliation_entries] at he
    rcases mem_map_ite he with ⟨a, _, hp, rfl⟩ | ⟨_, hp⟩
    · rfl
    · exact absurd hid (by simpa using hp)
  · rintro ⟨e, he, rfl⟩
    rw [approveReconciliation_entries]
    refine ⟨_, List.mem_map_of_mem _ he, ?_⟩
    simp
  · rintro ⟨e, he, rfl⟩
    rw [rejectReconciliation_entries]
    refine ⟨_, List.mem_map_of_mem _ he, ?_⟩
    simp

/-- C1 amended witness: approving the rejected entry rec-3 of the initial
store yields an entry rec-3 with status approved. -/
theorem decisions_unconditional_witness :
    (∃ e ∈ initialStoreW.reconciliationEntries, e.id = "rec-3") ∧
    (∃ e ∈ (approveReconciliation initialStoreW "rec-3" none "t").reconciliationEntries,
        e.id = "rec-3" ∧ e.status = ReconStatus.approved) :=
  ⟨by decide,
   (decisions_unconditional initialStoreW "rec-3" none "r" "t").2.2.1 (by decide)⟩

/-- C2 counterexample: in the initial store the file file-2 is already
approved (not pending_approval), yet approveFile appends its transactions to
the system collection again. -/
theorem approveFile_nonpending_appends_cex :
    ((initialStoreW.fileUploads.find? (fun f => f.id == "file-2")).map FileUpload.status
        = some FileStatus.approved) ∧
    ((approveFile initialStoreW "file-2" "2024-02-01T00:00:00Z").systemTransactions
        = initialStoreW.systemTransactions ++
            generateMockTransactions TxnSource.system "file-2" (List.replicate 6 drand)) ∧
    generateMockTransactions TxnSource.system "file-2" (List.replicate 6 drand) ≠ [] := by
  refine ⟨by decide, by decide, by decide⟩

/-- The full store after approveFile finds a file: every matching file is
stamped approved and the found file's transactions are appended to the
collection selected by its source. -/
theorem approveFile_found (s : Store) (fileId nowIso : String) (file : FileUpload)
    (hfind : s.fileUploads.find? (fun f => f.id == fileId) = some file) :
    approveFile s fileId nowIso =
      { s with
          fileUploads := s.fileUploads.map fun f =>
            if f.id == fileId then
              { f with
                  status := FileStatus.approved
                  approvedBy := some s.currentUser.name
                  approvedAt := some nowIso }
            else f
          bankTransactions :=
            if file.source = TxnSource.bank then s.bankTransactions ++ file.transactions
            else s.bankTransactions
          systemTransactions :=
            if file.source = TxnSource.system then s.systemTransactions ++ file.transactions
            else s.systemTransactions } := by
  unfold approveFile
  rw [hfind]
  dsimp only
  cases hs : file.source <;> simp

/-- C2 amended: approveFile requires only that the file exists: when no file
matches it leaves the store unchanged, and when one matches — whatever its
current status — it marks every matching file approved, stamps
approvedBy/approvedAt, and appends the found file's transactions verbatim to
the collection selected by file.source. -/
theorem approveFile_effect (s : Store) (fileId nowIso : String) :
    (s.fileUploads.find? (fun f => f.id == fileId) = none →
        approveFile s fileId nowIso = s) ∧
    (∀ file, s.fileUploads.find? (fun f => f.id == fileId) = some file →
        (∀ f ∈ (approveFile s fileId nowIso).fileUploads, f.id = fileId →
            f.status = FileStatus.approved ∧
            f.approvedBy = some s.currentUser.name ∧
            f.approvedAt = some nowIso) ∧
        (approveFile s fileId nowIso).bankTransactions =
          (if file.source = TxnSource.bank then s.bankTransactions ++ file.transactions
           else s.bankTransactions) ∧
        (approveFile s fileId nowIso).systemTransactions =
          (if file.source = TxnSource.system then s.systemTransactions ++ file.transactions
           else s.systemTransactions)) := by
  constructor
  · intro h
    unfold approveFile
    rw [h]
  · intro file hfind
    rw [approveFile_found s fileId nowIso file hfind]
    refine ⟨?_, rfl, rfl⟩
    intro f hf hid
    rcases mem_map_ite hf with ⟨a, _, hp, rfl⟩ | ⟨_, hp⟩
    · exact ⟨rfl, rfl, rfl⟩
    · exact absurd hid (by simpa using hp)

/-- C2 amended witness: approving the pending fixture file appends its
transactions to the bank collection and stamps the file. -/
theorem approveFile_effect_witness :
    (wStore.fileUploads.find? (fun f => f.id == "file-9") = some wFile) ∧
    ((∀ f ∈ (approveFile wStore "file-9" "t").fileUploads, f.id = "file-9" →
        f.status = FileStatus.approved ∧
        f.approvedBy = some wStore.currentUser.name ∧
        f.approvedAt = some "t") ∧
     (approveFile wStore "file-9" "t").bankTransactions =
       (if wFile.source = TxnSource.bank then wStore.bankTransactions ++ wFile.transactions
        else wStore.bankTransactions) ∧
     (approveFile wStore "file-9" "t").systemTransactions =
       (if wFile.source = TxnSource.system then wStore.systemTransactions ++ wFile.transactions
        else wStore.systemTransactions)) :=
  ⟨by decide, (approveFile_effect wStore "file-9" "t").2 wFile (by decide)⟩

/-- C3: every program call of createReconciliation — issued by the
reconciliation form, which fixes status pending_approval — whose referenced
bank and system transactions are present in their collections appends a new
pending_approval entry and, in the same atomic step, sets both referenced
transactions' status to pending. -/
theorem createReconciliation_inserts_pending
    (s : Store) (bankTxn systemTxn : Transaction) (comments : String)
    (nowMs : Nat) (nowIso : String)
    (hb : bankTxn ∈ s.bankTransactions) (hsy : systemTxn ∈ s.systemTransactions) :
    (∃ newEntry : ReconciliationEntry,
        (reconciliationFormSubmit s bankTxn systemTxn comments nowMs nowIso).1.reconciliationEntries =
          s.reconciliationEntries ++ [newEntry] ∧
        newEntry.status = ReconStatus.pending_approval ∧
        newEntry.bankTransactionId = bankTxn.id ∧
        newEntry.systemTransactionId = systemTxn.id) ∧
    (∃ t ∈ (reconciliationFormSubmit s bankTxn systemTxn comments nowMs nowIso).1.bankTransactions,
        t.id = bankTxn.id ∧ t.status = TxnStatus.pending) ∧
    (∀ t ∈ (reconciliationFormSubmit s bankTxn systemTxn comments nowMs nowIso).1.bankTransactions,
        t.id = bankTxn.id → t.status = TxnStatus.pending) ∧
    (∃ t ∈ (reconciliationFormSubmit s bankTxn systemTxn comments nowMs nowIso).1.systemTransactions,
        t.id = systemTxn.id ∧ t.status = TxnStatus.pending) ∧
    (∀ t ∈ (reconciliationFormSubmit s bankTxn systemTxn comments nowMs nowIso).1.systemTransactions,
        t.id = systemTxn.id → t.status = TxnStatus.pending) := by
  refine ⟨⟨_, rfl, rfl, rfl, rfl⟩, ?_, ?_, ?_, ?_⟩
  · exact ⟨_, List.mem_map_of_mem _ hb, by simp⟩
  · intro t ht hid
    rcases mem_map_ite ht with ⟨a, _, hp, rfl⟩ | ⟨_, hp⟩
    · rfl
    · exact absurd hid (by simpa using hp)
  · exact ⟨_, List.mem_map_of_mem _ hsy, by simp⟩
  · intro t ht hid
    rcases mem_map_ite ht with ⟨a, _, hp, rfl⟩ | ⟨_, hp⟩
    · rfl
    · exact absurd hid (by simpa using hp)

/-- C3 witness: creating a reconciliation over the fixture transactions. -/
theorem createReconciliation_inserts_pending_witness :
    (wTxn ∈ wStore.bankTransactions) ∧ (wSysTxn ∈ wStore.systemTransactions) ∧
    ((∃ newEntry : ReconciliationEntry,
        (reconciliationFormSubmit wStore wTxn wSysTxn "" 7 "t").1.reconciliationEntries =
          wStore.reconciliationEntries ++ [newEntry] ∧
        newEntry.status = ReconStatus.pending_approval ∧
        newEntry.bankTransactionId = wTxn.id ∧
        newEntry.systemTransactionId = wSysTxn.id) ∧
     (∃ t ∈ (reconciliationFormSubmit wStore wTxn wSysTxn "" 7 "t").1.bankTransactions,
        t.id = wTxn.id ∧ t.status = TxnStatus.pending) ∧
     (∀ t ∈ (reconciliationFormSubmit wStore wTxn wSysTxn "" 7 "t").1.bankTransactions,
        t.id = wTxn.id → t.status = TxnStatus.pending) ∧
     (∃ t ∈ (reconciliationFormSubmit wStore wTxn wSysTxn "" 7 "t").1.systemTransactions,
        t.id = wSysTxn.id ∧ t.status = TxnStatus.pending) ∧
     (∀ t ∈ (reconciliationFormSubmit wStore wTxn wSysTxn "" 7 "t").1.systemTransactions,
        t.id = wSysTxn.id → t.status = TxnStatus.pending)) :=
  ⟨by decide, by decide,
   createReconciliation_inserts_pending wStore wTxn wSysTxn "" 7 "t" (by decide) (by decide)⟩

/-- Fixture search parameters. -/
def wParams : FileUploadSearchParams :=
  { page := 1, pageSize := 10, organization := none, schedule := none,
    status := none, searchTerm := none }

/-- C10 counterexample: with searchTerm a single space, the full response is
not equal to the response with searchTerm omitted — the filters echo records
the supplied term verbatim while the omitted call echoes none. -/
theorem whitespace_searchTerm_cex :
    searchFileUploads [] { wParams with searchTerm := some " " } ≠
      searchFileUploads [] wParams := by
  intro h
  have h2 := congrArg (fun r => r.filters.searchTerm) h
  simp [searchFileUploads, wParams] at h2

/-- C10 amended: a searchTerm that is empty or all-whitespace applies no
filtering — the data slice and the pagination descriptor are identical to
the response with searchTerm omitted; only the filters echo differs, as it
preserves the supplied searchTerm verbatim. -/
theorem whitespace_searchTerm_no_filtering
    (files : List FileUpload) (params : FileUploadSearchParams) (t : String)
    (ht : jsTrim t = "") :
    (searchFileUploads files { params with searchTerm := some t }).data =
      (searchFileUploads files { params with searchTerm := none }).data ∧
    (searchFileUploads files { params with searchTerm := some t }).pagination =
      (searchFileUploads files { params with searchTerm := none }).pagination ∧
    (searchFileUploads files { params with searchTerm := some t }).filters =
      { (searchFileUploads files { params with searchTerm := none }).filters with
          searchTerm := some t } := by
  have hfilters : applyFilters files { params with searchTerm := some t } =
      applyFilters files { params with searchTerm := none } := by
    unfold applyFilters
    dsimp only
    simp [filterBySearchTerm, ht]
  refine ⟨?_, ?_, ?_⟩ <;> simp only [searchFileUploads, hfilters]

/-- C10 amended witness: searchTerm a single space over the fixture file. -/
theorem whitespace_searchTerm_no_filtering_witness :
    jsTrim " " = "" ∧
    ((searchFileUploads [wFile] { wParams with searchTerm := some " " }).data =
        (searchFileUploads [wFile] { wParams with searchTerm := none }).data ∧
     (searchFileUploads [wFile] { wParams with searchTerm := some " " }).pagination =
        (searchFileUploads [wFile] { wParams with searchTerm := none }).pagination ∧
     (searchFileUploads [wFile] { wParams with searchTerm := some " " }).filters =
        { (searchFileUploads [wFile] { wParams with searchTerm := none }).filters with
            searchTerm := some " " }) :=
  ⟨by decide, whitespace_searchTerm_no_filtering [wFile] wParams " " (by decide)⟩

/-- The sort comparator is transitive. -/
theorem uploadLE_trans : ∀ a b c : FileUpload, uploadLE a b → uploadLE b c → uploadLE a c := by
  intro a b c hab hbc
  simp only [uploadLE, decide_eq_true_eq] at *
  exact le_trans hbc hab

/-- The sort comparator is total. -/
theorem uploadLE_total : ∀ a b : FileUpload, uploadLE a b || uploadLE b a := by
  intro a b
  simp only [uploadLE]
  rcases Nat.le_total (dateKey b.uploadedAt) (dateKey a.uploadedAt) with h | h <;> simp [h]

/-- C8: the filtered sequence search paginates is sorted by uploadedAt
descending; files with equal uploadedAt keep their original relative order
(the filter sublist with a fixed uploadedAt is unchanged by the sort); and
the data slice search returns is a sublist of that sorted sequence. -/
theorem search_sorted_stable (files : List FileUpload) (params : FileUploadSearchParams) :
    (sortByUploadedAt (applyFilters files params)).Pairwise
      (fun a b => dateKey b.uploadedAt ≤ dateKey a.uploadedAt) ∧
    (∀ u : String,
        (sortByUploadedAt (applyFilters files params)).filter (fun f => f.uploadedAt == u) =
          (applyFilters files params).filter (fun f => f.uploadedAt == u)) ∧
    (searchFileUploads files params).data.Sublist (sortByUploadedAt (applyFilters files params)) := by
  refine ⟨?_, ?_, ?_⟩
  · have h := List.sorted_mergeSort uploadLE_trans uploadLE_total (applyFilters files params)
    exact h.imp (by intro a b hab; simpa [uploadLE] using hab)
  · intro u
    have hmem : ∀ a ∈ (applyFilters files params).filter (fun f => f.uploadedAt == u),
        a.uploadedAt = u := by
      intro a ha
      simpa using (List.mem_filter.mp ha).2
    have hc_pair : ((applyFilters files params).filter (fun f => f.uploadedAt == u)).Pairwise
        fun a b => uploadLE a b := by
      apply List.pairwise_of_forall_mem_list
      intro a ha b hb
      simp [uploadLE, hmem a ha, hmem b hb]
    have h1 := List.sublist_mergeSort uploadLE_trans uploadLE_total hc_pair
      (List.filter_sublist (applyFilters files params))
    have h2 : ((applyFilters files params).filter (fun f => f.uploadedAt == u)).filter
        (fun f => f.uploadedAt == u) =
        (applyFilters files params).filter (fun f => f.uploadedAt == u) :=
      List.filter_eq_self.mpr (fun a ha => (List.mem_filter.mp ha).2)
    have h3 := h1.filter (fun f => f.uploadedAt == u)
    rw [h2] at h3
    have h4 := (((applyFilters files params).mergeSort_perm uploadLE).filter
      (fun f => f.uploadedAt == u)).length_eq
    exact (h3.eq_of_length h4.symm).symm
  · have : (searchFileUploads files params).data =
        jsSlice (sortByUploadedAt (applyFilters files params))
          ((params.page - 1) * params.pageSize)
          ((params.page - 1) * params.pageSize + params.pageSize) := rfl
    rw [this]
    unfold jsSlice
    exact (List.take_sublist _ _).trans (List.drop_sublist _ _)

/-- Array.prototype.slice with a non-negative start and a window of positive
size size is drop-then-take. -/
theorem jsSlice_eq_drop_take {α : Type} (l : List α) (start size : Int)
    (h0 : 0 ≤ start) (hs : 0 < size) :
    jsSlice l start (start + size) = (l.drop start.toNat).take size.toNat := by
  unfold jsSlice jsSliceIdx
  rw [if_neg (by omega), if_neg (by omega)]
  rcases le_or_lt start.toNat l.length with h | h
  · rw [min_eq_left h]
    rw [List.take_eq_take]
    rw [List.length_drop]
    omega
  · rw [min_eq_right (le_of_lt h)]
    have hd1 : List.drop l.length l = [] := List.drop_length l
    have hd2 : List.drop start.toNat l = [] := List.drop_eq_nil_of_le (le_of_lt h)
    simp [hd1, hd2]

/-- Characterisation of Math.ceil(totalItems / pageSize) for pageSize > 0:
zero items give zero pages, and otherwise the page count is the least one
whose capacity covers the items. -/
theorem ceilDivNatInt_spec (n : Nat) (b : Int) (hb : 0 < b) :
    (n = 0 → ceilDivNatInt n b = 0) ∧
    (0 < n →
      (ceilDivNatInt n b - 1) * b < (n : Int) ∧ (n : Int) ≤ ceilDivNatInt n b * b) := by
  have hB : b = ((b.toNat : Nat) : Int) := by omega
  constructor
  · intro h
    subst h
    unfold ceilDivNatInt
    rw [if_pos hb, hB]
    have h1 : ((0:Nat) : Int) + ((b.toNat : Nat) : Int) - 1 = ((b.toNat - 1 : Nat) : Int) := by
      push_cast
      omega
    rw [h1, ← Int.ofNat_ediv, Nat.div_eq_of_lt (by omega)]
    rfl
  · intro hn
    unfold ceilDivNatInt
    rw [if_pos hb, hB]
    have h1 : ((n:Nat) : Int) + ((b.toNat : Nat) : Int) - 1 = ((n + b.toNat - 1 : Nat) : Int) := by
      omega
    rw [h1, ← Int.ofNat_ediv]
    have key : b.toNat * ((n + b.toNat - 1) / b.toNat) + (n + b.toNat - 1) % b.toNat + 1 =
        n + b.toNat := by
      have := Nat.div_add_mod (n + b.toNat - 1) b.toNat
      omega
    have hrB : (n + b.toNat - 1) % b.toNat < b.toNat := Nat.mod_lt _ (by omega)
    have keyi : ((b.toNat : Nat) : Int) * (((n + b.toNat - 1) / b.toNat : Nat) : Int) +
        (((n + b.toNat - 1) % b.toNat : Nat) : Int) + 1 = (n : Int) + (b.toNat : Int) := by
      exact_mod_cast key
    constructor
    · have h2 : ((((n + b.toNat - 1) / b.toNat : Nat) : Int) - 1) * ((b.toNat : Nat) : Int) =
          ((b.toNat : Nat) : Int) * (((n + b.toNat - 1) / b.toNat : Nat) : Int) -
            ((b.toNat : Nat) : Int) := by
        ring
      rw [h2]
      omega
    · have h2 : (((n + b.toNat - 1) / b.toNat : Nat) : Int) * ((b.toNat : Nat) : Int) =
          ((b.toNat : Nat) : Int) * (((n + b.toNat - 1) / b.toNat : Nat) : Int) := by
        ring
      rw [h2]
      omega

/-- C5: the pagination contract of searchFileUploads: the data slice is the
window of the filtered, sorted sequence starting at (page-1)*pageSize of
length pageSize; a start index at or past the end yields an empty slice;
totalPages is the ceiling of totalItems / pageSize with 0 pages for 0 items;
hasNextPage is page &lt; totalPages and hasPreviousPage is page &gt; 1. -/
theorem searchFileUploads_pagination (files : List FileUpload) (params : FileUploadSearchParams)
    (hpage : 1 ≤ params.page) (hsize : 0 < params.pageSize) :
    (searchFileUploads files params).data =
      ((sortByUploadedAt (applyFilters files params)).drop
          ((params.page - 1) * params.pageSize).toNat).take params.pageSize.toNat ∧
    (searchFileUploads files params).pagination.totalItems =
      (sortByUploadedAt (applyFilters files params)).length ∧
    ((searchFileUploads files params).pagination.totalItems = 0 →
      (searchFileUploads files params).pagination.totalPages = 0) ∧
    (0 < (searchFileUploads files params).pagination.totalItems →
      ((searchFileUploads files params).pagination.totalPages - 1) * params.pageSize <
        ((searchFileUploads files params).pagination.totalItems : Int) ∧
      ((searchFileUploads files params).pagination.totalItems : Int) ≤
        (searchFileUploads files params).pagination.totalPages * params.pageSize) ∧
    (((sortByUploadedAt (applyFilters files params)).length : Int) ≤
        (params.page - 1) * params.pageSize →
      (searchFileUploads files params).data = []) ∧
    (searchFileUploads files params).pagination.hasNextPage =
      decide (params.page < (searchFileUploads files params).pagination.totalPages) ∧
    (searchFileUploads files params).pagination.hasPreviousPage = decide (1 < params.page) := by
  have h0 : 0 ≤ (params.page - 1) * params.pageSize :=
    mul_nonneg (by omega) (by omega)
  have hdata : (searchFileUploads files params).data =
      ((sortByUploadedAt (applyFilters files params)).drop
          ((params.page - 1) * params.pageSize).toNat).take params.pageSize.toNat :=
    jsSlice_eq_drop_take (sortByUploadedAt (applyFilters files params))
      ((params.page - 1) * params.pageSize) params.pageSize h0 hsize
  refine ⟨hdata, rfl, ?_, ?_, ?_, rfl, rfl⟩
  · exact fun h =>
      (ceilDivNatInt_spec (sortByUploadedAt (applyFilters files params)).length
        params.pageSize hsize).1 h
  · exact fun h =>
      (ceilDivNatInt_spec (sortByUploadedAt (applyFilters files params)).length
        params.pageSize hsize).2 h
  · intro h
    rw [hdata]
    rw [List.drop_eq_nil_of_le (by omega)]
    simp

/-- C5 witness: page 1 of size 10 over the empty collection. -/
theorem searchFileUploads_pagination_witness :
    1 ≤ wParams.page ∧ 0 < wParams.pageSize ∧
    ((searchFileUploads [] wParams).data =
      ((sortByUploadedAt (applyFilters [] wParams)).drop
          ((wParams.page - 1) * wParams.pageSize).toNat).take wParams.pageSize.toNat ∧
    (searchFileUploads [] wParams).pagination.totalItems =
      (sortByUploadedAt (applyFilters [] wParams)).length ∧
    ((searchFileUploads [] wParams).pagination.totalItems = 0 →
      (searchFileUploads [] wParams).pagination.totalPages = 0) ∧
    (0 < (searchFileUploads [] wParams).pagination.totalItems →
      ((searchFileUploads [] wParams).pagination.totalPages - 1) * wParams.pageSize <
        ((searchFileUploads [] wParams).pagination.totalItems : Int) ∧
      ((searchFileUploads [] wParams).pagination.totalItems : Int) ≤
        (searchFileUploads [] wParams).pagination.totalPages * wParams.pageSize) ∧
    (((sortByUploadedAt (applyFilters [] wParams)).length : Int) ≤
        (wParams.page - 1) * wParams.pageSize →
      (searchFileUploads [] wParams).data = []) ∧
    (searchFileUploads [] wParams).pagination.hasNextPage =
      decide (wParams.page < (searchFileUploads [] wParams).pagination.totalPages) ∧
    (searchFileUploads [] wParams).pagination.hasPreviousPage = decide (1 < wParams.page)) :=
  ⟨by decide, by decide, searchFileUploads_pagination [] wParams (by decide) (by decide)⟩

end Recon
